import Mathlib

/-!
Shallow embedding of `bot_prototype.py`: an HTTP joke-bot service keeping
per-user conversation transcripts in a process-wide `defaultdict(list)`,
with two joke-provider variants selected per request by a factory, and two
routes (POST a message, GET the history).

Modelling choices, each tied to the source:
* An event is the dict `{"type": "user"|"bot", "message": text}`; we keep
  the `type` field as a plain string, as the source does.
* `inmemory_storage = defaultdict(list)` is a total map `String → List Event`
  whose every entry starts at `[]` (a `defaultdict` lookup never fails; an
  absent key yields a fresh empty list).
* The outbound HTTP calls of `retrieve_joke` are modelled by an `ExtService`
  record carrying what the external service would answer for this request:
  the random endpoint's `value` string and the search endpoint's `result`
  list (each entry's `value` text).  The source's quirk of re-invoking
  `response.json` (`results()` twice) re-parses the same response body, so
  semantically the search variant inspects one result list.
* Python exceptions are `Except`: the only raise points reachable in
  `handle_user_message` (`request.json["text"]` missing → `KeyError`)
  precede every store access, so an error result carries no store and the
  run semantics keeps the store unchanged on error.
* In-place mutation: the `Conversation` aliases the store's own list, so
  every append is visible in the store once the handler returns; the pure
  model expresses this by writing the conversation's final event list back
  to the identifier's entry.
-/

namespace BotPrototype

/-- One conversation event, as stored: `{"type": ..., "message": ...}`. -/
structure Event where
  type : String
  message : String
deriving DecidableEq, Repr

/-- The conversation store: `inmemory_storage = defaultdict(list)` as a
total map; lookup never fails and absent identifiers read as `[]`. -/
abbrev Store := String → List Event

/-- The initial store: every identifier maps to the empty history. -/
def inmemory_storage : Store := fun _ => []

/-- Point update of the store: models the in-place mutation of the list
`inmemory_storage[username]` becoming visible to later lookups. -/
def Store.update (s : Store) (username : String) (l : List Event) : Store :=
  fun v => if v = username then l else s v

/-- The `Conversation` class: the identifier, the (shared) event list, and
the snapshot `number_old_events = len(old_conversation_events)`. -/
structure Conversation where
  conversation_id : String
  conversation_events : List Event
  number_old_events : Nat
deriving DecidableEq, Repr

/-- `Conversation.__init__`: wraps the history and snapshots its length. -/
def Conversation.init (conversation_id : String) (old_conversation_events : List Event) :
    Conversation :=
  { conversation_id := conversation_id
    conversation_events := old_conversation_events
    number_old_events := old_conversation_events.length }

/-- `add_user_message`: appends `{"type": "user", "message": message}`. -/
def Conversation.add_user_message (c : Conversation) (message : String) : Conversation :=
  { c with conversation_events :=
      c.conversation_events ++ [{ type := "user", message := message }] }

/-- `add_bot_message`: appends `{"type": "bot", "message": bot_messages}`. -/
def Conversation.add_bot_message (c : Conversation) (bot_messages : String) : Conversation :=
  { c with conversation_events :=
      c.conversation_events ++ [{ type := "bot", message := bot_messages }] }

/-- `new_events_dict`: `self.conversation_events[self.number_old_events:]`. -/
def Conversation.new_events_dict (c : Conversation) : List Event :=
  c.conversation_events.drop c.number_old_events

/-- What the external joke service would return for the current request:
the random endpoint's `value`, and the search endpoint's `result` list
projected to each entry's `value` text. -/
structure ExtService where
  randomJoke : String
  searchResults : List String
deriving DecidableEq, Repr

/-- `ChuckNorrisBot.retrieve_joke`: returns the random endpoint's `value`. -/
def ChuckNorrisBot.retrieve_joke (ext : ExtService) : String :=
  ext.randomJoke

/-- `ChuckNorrisBot.handle_message`: append the user message; if the total
event count is now `<= 1`, append the fixed welcome; append the joke. -/
def ChuckNorrisBot.handle_message (ext : ExtService) (message_text : String)
    (conversation : Conversation) : Conversation :=
  let c1 := conversation.add_user_message message_text
  let c2 := if c1.conversation_events.length ≤ 1
    then c1.add_bot_message "Welcome! Let me tell you a joke."
    else c1
  c2.add_bot_message (ChuckNorrisBot.retrieve_joke ext)

/-- `ChuckNorrisJokeFinderBot.retrieve_joke`: if the search `result` list is
non-empty return the first entry's `value`, else the fallback string with
the search text interpolated (`\x27` is the ASCII apostrophe). -/
def ChuckNorrisJokeFinderBot.retrieve_joke (ext : ExtService) (message_text : String) : String :=
  match ext.searchResults with
  | v :: _ => v
  | [] => "Phew!! The joke with the text \x27" ++ message_text ++ "\x27 was hard to find."

/-- `ChuckNorrisJokeFinderBot.handle_message`: same shape as the random
variant, retrieving the joke by searching for the user's message. -/
def ChuckNorrisJokeFinderBot.handle_message (ext : ExtService) (message_text : String)
    (conversation : Conversation) : Conversation :=
  let c1 := conversation.add_user_message message_text
  let c2 := if c1.conversation_events.length ≤ 1
    then c1.add_bot_message "Welcome! Let me tell you a joke."
    else c1
  c2.add_bot_message (ChuckNorrisJokeFinderBot.retrieve_joke ext message_text)

/-- The closed set of provider variants the factory can produce. -/
inductive JokeBot where
  | chuckNorrisBot
  | chuckNorrisJokeFinderBot
deriving DecidableEq, Repr

/-- `JokeFactory.get_relevant_bot`.  The source wraps the branch in
`try/except AssertionError` with a trailing `return None`; nothing in the
`try` body can raise `AssertionError` (both branches just construct and
return a bot), so that trailing path is dead code.  The `Option` codomain
keeps the dead `None` outcome representable so totality is a theorem, not
a modelling assumption. -/
def JokeFactory.get_relevant_bot (query : Option String) : Option JokeBot :=
  if query = some "jokeFinder" then some JokeBot.chuckNorrisJokeFinderBot
  else some JokeBot.chuckNorrisBot

/-- Dynamic dispatch of `f.handle_message(...)` over the closed variant set. -/
def JokeBot.handle_message (b : JokeBot) (ext : ExtService) (message_text : String)
    (conversation : Conversation) : Conversation :=
  match b with
  | JokeBot.chuckNorrisBot => ChuckNorrisBot.handle_message ext message_text conversation
  | JokeBot.chuckNorrisJokeFinderBot =>
      ChuckNorrisJokeFinderBot.handle_message ext message_text conversation

/-- `conversationPersistence`: fetches `inmemory_storage[conversation_id]`
(the shared list; absent ids yield `[]`) and wraps it in a `Conversation`.
No explicit save happens on exit: mutation is in place, which the pure
handler models by writing the final list back. -/
def conversationPersistence (store : Store) (conversation_id : String) : Conversation :=
  Conversation.init conversation_id (store conversation_id)

/-- The reachable error outcomes of the POST handler: a `KeyError` from
`request.json["text"]`, and the (dead) `AttributeError` that calling a
method on a `None` factory result would raise. -/
inductive HandlerError where
  | keyError (field : String)
  | attributeError
deriving DecidableEq, Repr

/-- The parsed JSON body of a POST: the `"text"` field (absent allowed) and
the optional `"bot_type"` selector. -/
structure JsonBody where
  text : Option String
  bot_type : Option String
deriving DecidableEq, Repr

/-- `handle_user_message` (POST `/user/<username>/message`): read
`request.json["text"]` (KeyError if absent — before any store access), read
the optional `bot_type`, fetch the conversation, pick a bot via the
factory, let it handle the message, and answer with the `message` texts of
the new events whose `type` is `"bot"`.  On success the identifier's store
entry holds the conversation's final event list (in-place mutation). -/
def handle_user_message (ext : ExtService) (store : Store) (username : String)
    (body : JsonBody) : Except HandlerError (Store × List String) :=
  match body.text with
  | none => Except.error (HandlerError.keyError "text")
  | some message_text =>
    let query_name := body.bot_type
    let conversation := conversationPersistence store username
    match JokeFactory.get_relevant_bot query_name with
    | none => Except.error HandlerError.attributeError
    | some f =>
      let c := f.handle_message ext message_text conversation
      let bot_responses :=
        (c.new_events_dict.filter (fun x => x.type == "bot")).map (fun x => x.message)
      Except.ok (store.update username c.conversation_events, bot_responses)

/-- `retrieve_conversation_history` (GET `/user/<username>/message`):
the full stored sequence with status 200 if non-empty, else the empty
sequence with status 404. -/
def retrieve_conversation_history (store : Store) (username : String) : List Event × Nat :=
  let history := store username
  if history.isEmpty then (history, 404) else (history, 200)

/-- Effect of one POST on the store: on success the updated store, on an
error the unchanged store (both reachable raise points in
`handle_user_message` precede every store mutation). -/
def postStepBody (ext : ExtService) (store : Store) (username : String)
    (body : JsonBody) : Store :=
  match handle_user_message ext store username body with
  | Except.ok (s, _) => s
  | Except.error _ => store

/-- One well-formed POST request: target identifier, message text, optional
selector, and the external service's answers for this request. -/
structure PostReq where
  username : String
  text : String
  bot_type : Option String
  ext : ExtService
deriving DecidableEq, Repr

/-- Store effect of one well-formed POST. -/
def postStep (store : Store) (r : PostReq) : Store :=
  postStepBody r.ext store r.username { text := some r.text, bot_type := r.bot_type }

/-- The store after a sequence of POSTs starting from the empty storage. -/
def runPosts (rs : List PostReq) : Store :=
  rs.foldl postStep inmemory_storage

/-- The events a POST appends to its target's stored sequence. -/
def postedEvents (store : Store) (r : PostReq) : List Event :=
  ((postStep store r) r.username).drop (store r.username).length

/-- The user event a handled message appends. -/
def userEvent (t : String) : Event := { type := "user", message := t }

/-- A bot event with the given text. -/
def botEvent (t : String) : Event := { type := "bot", message := t }

/-- The fixed welcome event. -/
def welcomeEvent : Event := botEvent "Welcome! Let me tell you a joke."

/-- Which variant the factory picks for a selector. -/
def botFor (query : Option String) : JokeBot :=
  if query = some "jokeFinder" then JokeBot.chuckNorrisJokeFinderBot
  else JokeBot.chuckNorrisBot

/-- The joke text a variant produces for this request. -/
def jokeFor (b : JokeBot) (ext : ExtService) (t : String) : String :=
  match b with
  | JokeBot.chuckNorrisBot => ChuckNorrisBot.retrieve_joke ext
  | JokeBot.chuckNorrisJokeFinderBot => ChuckNorrisJokeFinderBot.retrieve_joke ext t

/-- The events one handled message appends, as a function of the prior
stored length: the user event, the welcome iff the history was empty, and
the joke. -/
def newEventsFor (b : JokeBot) (ext : ExtService) (t : String) (priorLen : Nat) : List Event :=
  userEvent t :: ((if priorLen = 0 then [welcomeEvent] else []) ++ [botEvent (jokeFor b ext t)])

/-- The response body of one handled message, as a function of the prior
stored length. -/
def responsesFor (b : JokeBot) (ext : ExtService) (t : String) (priorLen : Nat) : List String :=
  (if priorLen = 0 then ["Welcome! Let me tell you a joke."] else []) ++ [jokeFor b ext t]

theorem get_relevant_bot_eq (query : Option String) :
    JokeFactory.get_relevant_bot query = some (botFor query) := by
  unfold JokeFactory.get_relevant_bot botFor
  split <;> rfl

theorem handle_message_init (b : JokeBot) (ext : ExtService) (t : String)
    (id : String) (h : List Event) :
    b.handle_message ext t (Conversation.init id h) =
      { conversation_id := id
        conversation_events := h ++ newEventsFor b ext t h.length
        number_old_events := h.length } := by
  cases b <;>
  · simp only [JokeBot.handle_message, ChuckNorrisBot.handle_message,
      ChuckNorrisJokeFinderBot.handle_message, Conversation.init,
      Conversation.add_user_message, Conversation.add_bot_message]
    by_cases h0 : h.length = 0
    · rw [if_pos]
      · simp [newEventsFor, userEvent, botEvent, welcomeEvent, jokeFor, h0,
          List.append_assoc]
      · simp [h0]
    · rw [if_neg]
      · simp [newEventsFor, userEvent, botEvent, welcomeEvent, jokeFor, h0,
          List.append_assoc]
      · simp only [List.length_append, List.length_cons, List.length_nil]
        omega

theorem responses_of_newEventsFor (b : JokeBot) (ext : ExtService) (t : String) (n : Nat) :
    ((newEventsFor b ext t n).filter (fun x => x.type == "bot")).map (fun x => x.message) =
      responsesFor b ext t n := by
  by_cases h0 : n = 0 <;>
    simp [newEventsFor, responsesFor, userEvent, botEvent, welcomeEvent, h0]

theorem handle_user_message_ok (ext : ExtService) (store : Store) (username t : String)
    (q : Option String) :
    handle_user_message ext store username { text := some t, bot_type := q } =
      Except.ok
        (store.update username
          (store username ++ newEventsFor (botFor q) ext t (store username).length),
         responsesFor (botFor q) ext t (store username).length) := by
  unfold handle_user_message conversationPersistence
  simp only [get_relevant_bot_eq, handle_message_init, Conversation.new_events_dict,
    List.drop_left, responses_of_newEventsFor]

theorem postStep_eq (store : Store) (r : PostReq) :
    postStep store r =
      Store.update store r.username
        (store r.username ++
          newEventsFor (botFor r.bot_type) r.ext r.text (store r.username).length) := by
  unfold postStep postStepBody
  rw [handle_user_message_ok]

theorem newEventsFor_length (b : JokeBot) (ext : ExtService) (t : String) (n : Nat) :
    (newEventsFor b ext t n).length = if n = 0 then 3 else 2 := by
  by_cases h0 : n = 0 <;> simp [newEventsFor, h0]

theorem foldl_postStep_length_ne_one (rs : List PostReq) (store : Store)
    (hstore : ∀ v, (store v).length ≠ 1) (v : String) :
    ((rs.foldl postStep store) v).length ≠ 1 := by
  induction rs generalizing store with
  | nil => exact hstore v
  | cons r rs ih =>
    simp only [List.foldl_cons]
    refine ih _ (fun w => ?_)
    rw [postStep_eq]
    unfold Store.update
    by_cases hw : w = r.username
    · rw [if_pos hw, List.length_append, newEventsFor_length]
      split <;> omega
    · rw [if_neg hw]
      exact hstore w

theorem runPosts_length_ne_one (rs : List PostReq) (v : String) :
    ((runPosts rs) v).length ≠ 1 :=
  foldl_postStep_length_ne_one rs inmemory_storage (fun _ => by simp [inmemory_storage]) v

/-- C1: after any sequence of handled POSTs, the next POST (either provider
variant, chosen by its `bot_type`) appends the fixed welcome message as a
bot event — i.e. the events it appends are exactly user message, welcome,
joke rather than user message, joke — if and only if the identifier's
stored event count immediately before the call was 0 or 1.  (A prior count
of 1 is unreachable, so the condition coincides with the code's
`len(events) <= 1` check made after the user message is appended.) -/
theorem welcome_iff_prior_count_zero_or_one (rs : List PostReq) (r : PostReq) :
    postedEvents (runPosts rs) r =
        [userEvent r.text, welcomeEvent, botEvent (jokeFor (botFor r.bot_type) r.ext r.text)] ↔
      ((runPosts rs) r.username).length = 0 ∨ ((runPosts rs) r.username).length = 1 := by
  have hne := runPosts_length_ne_one rs r.username
  unfold postedEvents
  rw [postStep_eq]
  unfold Store.update
  rw [if_pos rfl, List.drop_left]
  constructor
  · intro h
    left
    by_contra h0
    have h2 := congrArg List.length h
    rw [newEventsFor_length, if_neg h0] at h2
    simp at h2
  · rintro (h0 | h0)
    · simp [newEventsFor, h0]
    · exact absurd h0 hne

/-- One turn of a single-identifier run: the message text, the optional
selector, and the external service's answers for that turn. -/
structure TurnReq where
  text : String
  bot_type : Option String
  ext : ExtService
deriving DecidableEq, Repr

/-- A turn addressed to a fixed identifier. -/
def toPostReq (u : String) (t : TurnReq) : PostReq :=
  { username := u, text := t.text, bot_type := t.bot_type, ext := t.ext }

/-- The stored history of identifier `u` after a sequence of POSTs all
addressed to `u`, starting from the empty storage. -/
def historyAfter (u : String) (ts : List TurnReq) : List Event :=
  runPosts (ts.map (toPostReq u)) u

theorem runPosts_concat (rs : List PostReq) (r : PostReq) :
    runPosts (rs ++ [r]) = postStep (runPosts rs) r := by
  unfold runPosts
  rw [List.foldl_append]
  rfl

theorem historyAfter_concat (u : String) (ts : List TurnReq) (t : TurnReq) :
    historyAfter u (ts ++ [t]) =
      historyAfter u ts ++
        newEventsFor (botFor t.bot_type) t.ext t.text (historyAfter u ts).length := by
  unfold historyAfter
  rw [List.map_append]
  simp only [List.map_cons, List.map_nil]
  rw [runPosts_concat, postStep_eq]
  unfold Store.update toPostReq
  rw [if_pos rfl]

theorem historyAfter_eq_nil_iff (u : String) (ts : List TurnReq) :
    historyAfter u ts = [] ↔ ts = [] := by
  constructor
  · intro h
    rcases List.eq_nil_or_concat ts with h0 | ⟨ts', t, rfl⟩
    · exact h0
    · rw [List.concat_eq_append, historyAfter_concat] at h
      rcases List.append_eq_nil.mp h with ⟨-, h2⟩
      simp [newEventsFor] at h2
  · rintro rfl
    rfl

/-- C2: along any sequence of successfully handled POSTs to one identifier,
the stored history length never decreases, and each call appends exactly
one user event followed by bot events only — one or two of them, with two
(the welcome plus the joke) exactly on the very first turn for that
identifier. -/
theorem post_appends_one_user_and_one_or_two_bot_events (u : String)
    (ts : List TurnReq) (t : TurnReq) :
    (historyAfter u ts).length ≤ (historyAfter u (ts ++ [t])).length ∧
    ∃ botEvs, historyAfter u (ts ++ [t]) =
        historyAfter u ts ++ userEvent t.text :: botEvs ∧
      (∀ e ∈ botEvs, e.type = "bot") ∧
      (botEvs.length = 1 ∨ botEvs.length = 2) ∧
      (botEvs.length = 2 ↔ ts = []) := by
  rw [historyAfter_concat]
  refine ⟨by simp, ?_⟩
  refine ⟨(if (historyAfter u ts).length = 0 then [welcomeEvent] else []) ++
      [botEvent (jokeFor (botFor t.bot_type) t.ext t.text)], ?_, ?_, ?_, ?_⟩
  · simp [newEventsFor]
  · intro e he
    by_cases h0 : (historyAfter u ts).length = 0 <;>
      simp only [h0, if_pos, if_neg, List.nil_append, List.mem_append,
        List.mem_singleton, List.mem_cons, List.not_mem_nil, false_or,
        if_true, if_false, or_false] at he
    · rcases he with rfl | rfl <;> rfl
    · rcases he with rfl
      rfl
  · by_cases h0 : (historyAfter u ts).length = 0 <;> simp [h0]
  · by_cases h0 : (historyAfter u ts).length = 0
    · have hts : ts = [] := by
        rwa [List.length_eq_zero, historyAfter_eq_nil_iff] at h0
      have hnil : historyAfter u [] = [] := rfl
      simp [h0, hts, hnil]
    · have hts : ts ≠ [] := by
        intro hts
        exact h0 (by rw [List.length_eq_zero, historyAfter_eq_nil_iff]; exact hts)
      simp [h0, hts]

/-- C3: the factory is total — for every selector (including an absent one)
it returns a bot, never `None`: the search variant exactly for
`"jokeFinder"`, the random variant for everything else. -/
theorem get_relevant_bot_total (query : Option String) :
    (JokeFactory.get_relevant_bot query).isSome = true ∧
      JokeFactory.get_relevant_bot query =
        some (if query = some "jokeFinder" then JokeBot.chuckNorrisJokeFinderBot
          else JokeBot.chuckNorrisBot) := by
  unfold JokeFactory.get_relevant_bot
  split <;> exact ⟨rfl, rfl⟩

/-- One append operation on a `Conversation`. -/
inductive ConvOp where
  | userMsg (t : String)
  | botMsg (t : String)
deriving DecidableEq, Repr

/-- Apply one append operation. -/
def ConvOp.apply (c : Conversation) (op : ConvOp) : Conversation :=
  match op with
  | ConvOp.userMsg t => c.add_user_message t
  | ConvOp.botMsg t => c.add_bot_message t

/-- The event an operation appends. -/
def ConvOp.event : ConvOp → Event
  | ConvOp.userMsg t => userEvent t
  | ConvOp.botMsg t => botEvent t

theorem convOp_foldl_events (ops : List ConvOp) (c : Conversation) :
    (ops.foldl ConvOp.apply c).conversation_events =
        c.conversation_events ++ ops.map ConvOp.event ∧
      (ops.foldl ConvOp.apply c).number_old_events = c.number_old_events := by
  induction ops generalizing c with
  | nil => simp
  | cons op ops ih =>
    simp only [List.foldl_cons, List.map_cons]
    rcases ih (ConvOp.apply c op) with ⟨h1, h2⟩
    constructor
    · rw [h1]
      cases op <;>
        simp [ConvOp.apply, ConvOp.event, Conversation.add_user_message,
          Conversation.add_bot_message, userEvent, botEvent]
    · rw [h2]
      cases op <;> rfl

/-- C4: a conversation view built on a history of any length, after any
sequence of user/bot appends, reports as its new events exactly the
appended events, in order — never an event from before construction. -/
theorem new_events_dict_exact (id : String) (old : List Event) (ops : List ConvOp) :
    (ops.foldl ConvOp.apply (Conversation.init id old)).new_events_dict =
      ops.map ConvOp.event := by
  rcases convOp_foldl_events ops (Conversation.init id old) with ⟨h1, h2⟩
  unfold Conversation.new_events_dict
  rw [h1, h2]
  exact List.drop_left old (ops.map ConvOp.event)

/-- C5: whenever the POST handler completes, its response is exactly the
ordered `message` texts of the bot events appended to the identifier's
stored sequence during this call — user events and all events from earlier
calls are excluded. -/
theorem response_is_new_bot_messages (ext : ExtService) (store : Store)
    (username : String) (body : JsonBody) (store2 : Store) (resp : List String)
    (h : handle_user_message ext store username body = Except.ok (store2, resp)) :
    resp = (((store2 username).drop (store username).length).filter
        (fun x => x.type == "bot")).map (fun x => x.message) := by
  rcases body with ⟨ot, q⟩
  cases ot with
  | none => simp [handle_user_message] at h
  | some t =>
    rw [handle_user_message_ok] at h
    injection h with h
    injection h with h1 h2
    subst h1
    subst h2
    simp [Store.update, List.drop_left, responses_of_newEventsFor]

/-- Witness for C5: a first POST by "alice" with the random variant stubbed
to answer "J1" responds with the welcome and the joke, matching the bot
events appended to the store. -/
theorem response_is_new_bot_messages_witness :
    (handle_user_message { randomJoke := "J1", searchResults := [] } inmemory_storage
        "alice" { text := some "hi", bot_type := none } =
      Except.ok
        (Store.update inmemory_storage "alice"
          [{ type := "user", message := "hi" },
           { type := "bot", message := "Welcome! Let me tell you a joke." },
           { type := "bot", message := "J1" }],
         ["Welcome! Let me tell you a joke.", "J1"])) ∧
    ["Welcome! Let me tell you a joke.", "J1"] =
      (((Store.update inmemory_storage "alice"
            [{ type := "user", message := "hi" },
             { type := "bot", message := "Welcome! Let me tell you a joke." },
             { type := "bot", message := "J1" }] "alice").drop
          (inmemory_storage "alice").length).filter
        (fun x => x.type == "bot")).map (fun x => x.message) :=
  ⟨rfl, response_is_new_bot_messages { randomJoke := "J1", searchResults := [] }
    inmemory_storage "alice" { text := some "hi", bot_type := none } _ _ rfl⟩

/-- C6: the search variant's `retrieve_joke` returns the first match's text
when the external search reports at least one match, and exactly the
fallback string with the original search text interpolated when it reports
zero matches. -/
theorem retrieve_joke_first_or_fallback (message_text : String) (ext : ExtService) :
    ChuckNorrisJokeFinderBot.retrieve_joke ext message_text =
      if h : ext.searchResults = [] then
        "Phew!! The joke with the text \x27" ++ message_text ++ "\x27 was hard to find."
      else ext.searchResults.head h := by
  unfold ChuckNorrisJokeFinderBot.retrieve_joke
  cases hr : ext.searchResults with
  | nil => simp
  | cons v rest => simp

/-- C7: GET returns the identifier's full stored sequence as-is with
status 200 when it is non-empty, and an empty payload with status 404 when
the identifier has no stored events. -/
theorem history_get_status (store : Store) (username : String) :
    retrieve_conversation_history store username =
      if store username = [] then (([] : List Event), 404)
      else (store username, 200) := by
  unfold retrieve_conversation_history
  cases hr : store username with
  | nil => simp
  | cons e rest => simp

/-- C8 (behaviour at the failing input): a POST whose JSON body has no
`"text"` field fails with `KeyError("text")`, raised by
`request.json["text"]` before any access to the store, and the store is
left unchanged.  Flask turns the uncaught `KeyError` into an HTTP 500
server-error response, not the client-error status the claim asserts. -/
theorem missing_text_rejected_before_mutation (ext : ExtService) (store : Store)
    (username : String) (q : Option String) :
    handle_user_message ext store username { text := none, bot_type := q } =
        Except.error (HandlerError.keyError "text") ∧
      postStepBody ext store username { text := none, bot_type := q } = store :=
  ⟨rfl, rfl⟩

/-- C9: the store lookup is total (absent identifiers read as the empty
sequence), and because the `Conversation` mutates the store's own list,
every event appended during a completed POST is visible to subsequent
lookups with the same identifier: the stored sequence becomes the old one
followed by the (non-empty) new events, a later POST's conversation view
wraps exactly that grown sequence, and a later GET returns it with
status 200. -/
theorem store_lookup_shared_visibility (ext : ExtService) (store : Store)
    (username t : String) (q : Option String) (store2 : Store) (resp : List String)
    (h : handle_user_message ext store username { text := some t, bot_type := q } =
      Except.ok (store2, resp)) :
    ∃ newEvs, newEvs ≠ [] ∧
      store2 username = store username ++ newEvs ∧
      (conversationPersistence store2 username).conversation_events =
        store username ++ newEvs ∧
      retrieve_conversation_history store2 username = (store username ++ newEvs, 200) := by
  rw [handle_user_message_ok] at h
  injection h with h
  injection h with h1 h2
  subst h1
  refine ⟨newEventsFor (botFor q) ext t (store username).length, ?_, ?_, ?_, ?_⟩
  · simp [newEventsFor]
  · simp [Store.update]
  · simp [conversationPersistence, Conversation.init, Store.update]
  · unfold retrieve_conversation_history
    simp [Store.update, newEventsFor]

/-- Witness for C9: after "alice"'s first POST, the store holds the three
appended events and a GET returns them with status 200. -/
theorem store_lookup_shared_visibility_witness :
    (handle_user_message { randomJoke := "J1", searchResults := [] } inmemory_storage
        "alice" { text := some "hi", bot_type := none } =
      Except.ok
        (Store.update inmemory_storage "alice"
          [{ type := "user", message := "hi" },
           { type := "bot", message := "Welcome! Let me tell you a joke." },
           { type := "bot", message := "J1" }],
         ["Welcome! Let me tell you a joke.", "J1"])) ∧
    (∃ newEvs, newEvs ≠ [] ∧
      Store.update inmemory_storage "alice"
          [{ type := "user", message := "hi" },
           { type := "bot", message := "Welcome! Let me tell you a joke." },
           { type := "bot", message := "J1" }] "alice" =
        inmemory_storage "alice" ++ newEvs ∧
      (conversationPersistence
          (Store.update inmemory_storage "alice"
            [{ type := "user", message := "hi" },
             { type := "bot", message := "Welcome! Let me tell you a joke." },
             { type := "bot", message := "J1" }]) "alice").conversation_events =
        inmemory_storage "alice" ++ newEvs ∧
      retrieve_conversation_history
          (Store.update inmemory_storage "alice"
            [{ type := "user", message := "hi" },
             { type := "bot", message := "Welcome! Let me tell you a joke." },
             { type := "bot", message := "J1" }]) "alice" =
        (inmemory_storage "alice" ++ newEvs, 200)) :=
  ⟨rfl, store_lookup_shared_visibility { randomJoke := "J1", searchResults := [] }
    inmemory_storage "alice" "hi" none _ _ rfl⟩

/-- C10: a POST targeting one identifier leaves every other identifier's
stored sequence unchanged, whether the request is handled or rejected. -/
theorem post_frame_other_identifiers (ext : ExtService) (store : Store)
    (username : String) (body : JsonBody) (v : String) (hv : v ≠ username) :
    postStepBody ext store username body v = store v := by
  unfold postStepBody
  rcases body with ⟨ot, q⟩
  cases ot with
  | none => rfl
  | some t =>
    rw [handle_user_message_ok]
    simp [Store.update, hv]

/-- Witness for C10: "bob"'s (empty) history is untouched by "alice"'s
POST. -/
theorem post_frame_other_identifiers_witness :
    ("bob" ≠ "alice") ∧
      postStepBody { randomJoke := "J1", searchResults := [] } inmemory_storage "alice"
          { text := some "hi", bot_type := none } "bob" = inmemory_storage "bob" :=
  ⟨by decide, post_frame_other_identifiers { randomJoke := "J1", searchResults := [] }
    inmemory_storage "alice" { text := some "hi", bot_type := none } "bob" (by decide)⟩

end BotPrototype
